import Mathlib

/-!
Verification of the ActiveWorkoutSession controller
(`src/screens/Workouts/ActiveWorkoutScreen.tsx`) against its
natural-language specification.

The controller's React state (`sessionId`, `currentExerciseIndex`, `sets`,
`restTimer`, `isResting`, `showRestModal`) is embedded as a record
`SessionState`; each event handler of the screen becomes a pure function on
that record.  Asynchronous storage calls are modelled by an explicit
`DbOutcome` argument describing how the awaited call resolved.
-/

namespace IronPillar

/-- Joined exercise row (`Exercise` in `src/types/index.ts`); only the field
the active-workout controller reads. -/
structure Exercise where
  name : String
deriving Repr, DecidableEq

/-- Row of `WorkoutExercise & { exercise: Exercise }` from
`src/types/index.ts`, restricted to the fields `initializeSetsForExercise`
reads: `exercise_id`, `sets` (prescribed set count), `reps : number | null`,
`rest_seconds : number`, and the joined `exercise`. -/
structure WorkoutExercise where
  exercise_id : String
  sets : Nat
  reps : Option Nat
  rest_seconds : Nat
  exercise : Exercise
deriving Repr, DecidableEq

/-- The `WorkoutWithExercises` route parameter: id, name and the ordered
exercise list. -/
structure Workout where
  id : String
  name : String
  workout_exercises : List WorkoutExercise
deriving Repr, DecidableEq

/-- The `ActiveSet` record of `src/types/index.ts`.  `weight_lbs` is a
nullable numeric (entered through `parseFloat`), `reps` and `rpe` nullable
integers, `target_reps` and `rest_seconds` optional. -/
structure ActiveSet where
  exercise_id : String
  exercise_name : String
  set_number : Nat
  weight_lbs : Option Rat
  reps : Option Nat
  rpe : Option Nat
  completed : Bool
  target_reps : Option Nat
  rest_seconds : Option Nat
deriving Repr, DecidableEq

/-- The React state of `ActiveWorkoutScreen` that the claims are about:
`sessionId`, `currentExerciseIndex`, `sets`, `restTimer`, `isResting`,
`showRestModal` (lines 15-21 of the source). -/
structure SessionState where
  sessionId : String
  currentExerciseIndex : Nat
  sets : List ActiveSet
  restTimer : Nat
  isResting : Bool
  showRestModal : Bool
deriving Repr, DecidableEq

/-- JavaScript truthiness of a nullable numeric (`number | null`):
`null`/`undefined` and `0` are falsy, everything else truthy. -/
def ratTruthy : Option Rat → Bool
  | none => false
  | some q => decide (q ≠ 0)

/-- JavaScript truthiness of a nullable integer (`number | null`). -/
def natTruthy : Option Nat → Bool
  | none => false
  | some n => decide (n ≠ 0)

/-- JavaScript `v || dflt` on an optional number: yields `dflt` when `v` is
absent or `0` (falsy), otherwise the value itself. -/
def jsOr (v : Option Nat) (dflt : Nat) : Nat :=
  match v with
  | none => dflt
  | some n => if n = 0 then dflt else n

/-- A value for one mutable field of an `ActiveSet`; the TS `updateSet`
receives the field as `field: keyof ActiveSet` together with `value: any`. -/
inductive SetValue where
  | weight_lbs (v : Option Rat)
  | reps (v : Option Nat)
  | rpe (v : Option Nat)
  | completed (v : Bool)
deriving Repr, DecidableEq

/-- The spread update `{ ...set, [field]: value }`. -/
def setField (s : ActiveSet) : SetValue → ActiveSet
  | .weight_lbs v => { s with weight_lbs := v }
  | .reps v => { s with reps := v }
  | .rpe v => { s with rpe := v }
  | .completed v => { s with completed := v }

/-- `updateSet` (source lines 96-98):
`setSets(prev => prev.map((set, index) => index === setIndex ? { ...set, [field]: value } : set))`.
Note that the source has no guard on `set.completed`. -/
def updateSet (st : SessionState) (setIndex : Nat) (v : SetValue) : SessionState :=
  { st with
    sets := st.sets.mapIdx fun index set =>
      if index = setIndex then setField set v else set }

/-- `initializeSetsForExercise` (source lines 75-94): one `ActiveSet` per
prescribed set, numbered from 1, fields reset, `target_reps` and
`rest_seconds` copied from the prescription.  Out-of-range exercise index
yields no sets. -/
def initializeSetsForExercise (w : Workout) (exerciseIndex : Nat) : List ActiveSet :=
  match w.workout_exercises[exerciseIndex]? with
  | none => []
  | some exercise =>
    (List.range exercise.sets).map fun i =>
      { exercise_id := exercise.exercise_id
        exercise_name := exercise.exercise.name
        set_number := i + 1
        weight_lbs := none
        reps := none
        rpe := none
        completed := false
        target_reps := exercise.reps
        rest_seconds := some exercise.rest_seconds }

/-- State of a freshly and successfully started session
(`initializeWorkoutSession`, source lines 46-73): the returned session id is
stored and `initializeSetsForExercise(0)` populates `sets`; the remaining
state fields keep their `useState` initial values. -/
def initState (w : Workout) (sid : String) : SessionState :=
  { sessionId := sid
    currentExerciseIndex := 0
    sets := initializeSetsForExercise w 0
    restTimer := 0
    isResting := false
    showRestModal := false }

/-- How an awaited storage call resolved.  Throughout the repository the
client SDK resolves with a result object whose `error` field reports
database-side failures — every other call site destructures it and runs
`if (error) throw error` (e.g. `initializeWorkoutSession`, line 64); the
promise itself rejects only when something throws (transport failure).
`errorResult` is the resolved-with-error case, `exception` the rejected
case. -/
inductive DbOutcome where
  | ok
  | errorResult
  | exception
deriving Repr, DecidableEq

/-- Observable outcome of one `completeSet` invocation: the validation
alert ("Incomplete Set"), the catch-block alert ("Failed to save set"), a
thrown `TypeError` from indexing past `sets` (the async function rejects
before the `try`), or normal completion. -/
inductive CompleteResult where
  | validationAlert
  | saveErrorAlert
  | indexCrash
  | completedOk
deriving Repr, DecidableEq

/-- Payload of the `workout_session_sets` insert issued by `completeSet`
(source lines 110-119). -/
structure RecordSetCall where
  session_id : String
  exercise_id : String
  exercise_name : String
  set_number : Nat
  weight_lbs : Option Rat
  reps : Option Nat
  rpe : Option Nat
  completed : Bool
deriving Repr, DecidableEq

/-- `completeSet` (source lines 100-138).  Reads `sets[setIndex]`; rejects
with the validation alert when `!set.weight_lbs || !set.reps`; otherwise
issues the insert.  The source never inspects the insert's resolved result,
so execution continues past the `await` for both `ok` and `errorResult`;
only a rejected promise (`exception`) reaches the `catch`.  On continuation
it marks the set completed and, unless this is the last set of the last
exercise (index comparisons are JS number arithmetic, hence over `Int`),
starts the rest timer with `set.rest_seconds || 60`.  Returns the new
state, the observable outcome, and the insert payload (if one was issued). -/
def completeSet (w : Workout) (st : SessionState) (setIndex : Nat)
    (outcome : DbOutcome) : SessionState × CompleteResult × Option RecordSetCall :=
  match st.sets[setIndex]? with
  | none => (st, .indexCrash, none)
  | some set =>
    if !ratTruthy set.weight_lbs || !natTruthy set.reps then
      (st, .validationAlert, none)
    else
      let call : RecordSetCall :=
        { session_id := st.sessionId
          exercise_id := set.exercise_id
          exercise_name := set.exercise_name
          set_number := set.set_number
          weight_lbs := set.weight_lbs
          reps := set.reps
          rpe := set.rpe
          completed := true }
      match outcome with
      | .exception => (st, .saveErrorAlert, some call)
      | _ =>
        let st1 := updateSet st setIndex (.completed true)
        let isLastSet : Bool := decide ((setIndex : Int) = (st.sets.length : Int) - 1)
        let isLastExercise : Bool :=
          decide ((st.currentExerciseIndex : Int) = (w.workout_exercises.length : Int) - 1)
        let st2 :=
          if !isLastSet || !isLastExercise then
            { st1 with
              restTimer := jsOr set.rest_seconds 60
              isResting := true
              showRestModal := true }
          else st1
        (st2, .completedOk, some call)

/-- One firing of the rest-timer interval (source lines 29-44).  The effect
installs the interval only while `isResting && restTimer > 0`; each firing
runs `setRestTimer(prev => prev <= 1 ? 0 : prev - 1)`, additionally
clearing `isResting` and the modal when the timer reaches 0. -/
def tick (st : SessionState) : SessionState :=
  if st.isResting && decide (0 < st.restTimer) then
    if st.restTimer ≤ 1 then
      { st with restTimer := 0, isResting := false, showRestModal := false }
    else
      { st with restTimer := st.restTimer - 1 }
  else st

/-- The Skip Rest button's `onPress` (source lines 315-318):
`setIsResting(false); setShowRestModal(false);` — and nothing else. -/
def skipRest (st : SessionState) : SessionState :=
  { st with isResting := false, showRestModal := false }

/-- The +30s button's `onPress` (source line 323):
`setRestTimer(prev => prev + 30)`, unconditionally. -/
def extendRest (st : SessionState) : SessionState :=
  { st with restTimer := st.restTimer + 30 }

/-- `nextExercise` (source lines 140-148).  The returned flag records
whether `finishWorkout()` was invoked instead of advancing (that call only
talks to the store and to the alert UI; it touches none of the state fields
modelled here). -/
def nextExercise (w : Workout) (st : SessionState) : SessionState × Bool :=
  if (st.currentExerciseIndex : Int) < (w.workout_exercises.length : Int) - 1 then
    let nextIndex := st.currentExerciseIndex + 1
    ({ st with
        currentExerciseIndex := nextIndex
        sets := initializeSetsForExercise w nextIndex }, false)
  else
    (st, true)

/-- One user-triggerable controller operation, with the resolution of any
storage call it awaits. -/
inductive Op where
  | updateField (setIndex : Nat) (v : SetValue)
  | doCompleteSet (setIndex : Nat) (outcome : DbOutcome)
  | doTick
  | doSkipRest
  | doExtendRest
  | advanceExercise
deriving Repr, DecidableEq

/-- Small-step interpreter for the controller's operations. -/
def step (w : Workout) (st : SessionState) : Op → SessionState
  | .updateField i v => updateSet st i v
  | .doCompleteSet i outcome => (completeSet w st i outcome).1
  | .doTick => tick st
  | .doSkipRest => skipRest st
  | .doExtendRest => extendRest st
  | .advanceExercise => (nextExercise w st).1

/-- Run a sequence of operations from a freshly started session. -/
def run (w : Workout) (sid : String) (ops : List Op) : SessionState :=
  ops.foldl (step w) (initState w sid)

/-! ## Concrete fixtures -/

/-- A sample joined exercise. -/
def exBench : Exercise := { name := "Bench Press" }

/-- A prescription of two sets of eight with 90s rest. -/
def wxTwoSets : WorkoutExercise :=
  { exercise_id := "e1", sets := 2, reps := some 8, rest_seconds := 90, exercise := exBench }

/-- A one-exercise workout. -/
def wOne : Workout := { id := "w1", name := "Push Day", workout_exercises := [wxTwoSets] }

/-- Fresh session on `wOne` with weight and reps entered for set 0. -/
def stReady : SessionState :=
  updateSet (updateSet (initState wOne "s1") 0 (.weight_lbs (some 135))) 0 (.reps (some 5))

/-- The first entry of `stReady.sets`. -/
def setReady0 : ActiveSet :=
  { exercise_id := "e1", exercise_name := "Bench Press", set_number := 1,
    weight_lbs := some 135, reps := some 5, rpe := none, completed := false,
    target_reps := some 8, rest_seconds := some 90 }

/-- The first entry of a fresh session's `sets` on `wOne`. -/
def setFresh0 : ActiveSet :=
  { exercise_id := "e1", exercise_name := "Bench Press", set_number := 1,
    weight_lbs := none, reps := none, rpe := none, completed := false,
    target_reps := some 8, rest_seconds := some 90 }

/-- State of `wOne` mid-rest, after successfully completing set 0. -/
def stResting : SessionState := (completeSet wOne stReady 0 .ok).1

/-- A prescription whose rest duration is zero seconds. -/
def wxNoRest : WorkoutExercise :=
  { exercise_id := "e2", sets := 2, reps := some 10, rest_seconds := 0, exercise := exBench }

/-- A workout whose only exercise prescribes zero rest. -/
def wNoRest : Workout := { id := "w2", name := "Circuit", workout_exercises := [wxNoRest] }

/-- Fresh session on `wNoRest` with weight and reps entered for set 0. -/
def stNoRestReady : SessionState :=
  updateSet (updateSet (initState wNoRest "s2") 0 (.weight_lbs (some 100))) 0 (.reps (some 10))

/-- A second joined exercise. -/
def exSquat : Exercise := { name := "Squat" }

/-- A one-set prescription with 30s rest. -/
def wxOneSet : WorkoutExercise :=
  { exercise_id := "e3", sets := 1, reps := none, rest_seconds := 30, exercise := exSquat }

/-- A two-exercise workout. -/
def wTwo : Workout :=
  { id := "w3", name := "Full Body", workout_exercises := [wxTwoSets, wxOneSet] }

/-- A set that is already completed. -/
def setDone : ActiveSet :=
  { exercise_id := "e1", exercise_name := "Bench Press", set_number := 1,
    weight_lbs := some 135, reps := some 5, rpe := none, completed := true,
    target_reps := some 8, rest_seconds := some 90 }

/-- A session whose only set is already completed. -/
def stDone : SessionState :=
  { sessionId := "s1", currentExerciseIndex := 0, sets := [setDone],
    restTimer := 0, isResting := false, showRestModal := false }

/-- A set with zero weight entered (a bodyweight movement). -/
def setZeroW : ActiveSet :=
  { exercise_id := "e1", exercise_name := "Bench Press", set_number := 1,
    weight_lbs := some 0, reps := some 10, rpe := none, completed := false,
    target_reps := some 8, rest_seconds := some 90 }

/-- A session whose first set has zero weight entered. -/
def stZeroW : SessionState :=
  { sessionId := "s4", currentExerciseIndex := 0, sets := [setZeroW],
    restTimer := 0, isResting := false, showRestModal := false }

/-- A state with a running rest timer at 3 seconds. -/
def stTimer3 : SessionState :=
  { sessionId := "s1", currentExerciseIndex := 0, sets := [setDone],
    restTimer := 3, isResting := true, showRestModal := true }

/-! ## Claim theorems -/

/-- C1: the spec requires that a failed "record set" persistence call leaves
`sets[i].completed = false` and surfaces the error.  The code violates this:
`completeSet` never inspects the insert's resolved result (in contrast to
`initializeWorkoutSession`'s `if (error) throw error` on line 64), so when
the call resolves carrying a database error, the catch block is not reached —
the set is still marked completed, the rest timer starts, and no alert is
shown. -/
theorem C1_persist_failure_still_marks_complete :
    (completeSet wOne stReady 0 .errorResult).2.1 = CompleteResult.completedOk ∧
    ((completeSet wOne stReady 0 .errorResult).1.sets[0]?.map (·.completed)) = some true ∧
    (completeSet wOne stReady 0 .errorResult).1.isResting = true := by
  refine ⟨rfl, rfl, rfl⟩

/-- C2 counterexample: `skipRest` does not set `restTimer = 0`.  In the
mid-rest state `stResting` (timer at 90s), pressing Skip Rest clears
`isResting` but leaves `restTimer` at 90. -/
theorem C2_counterexample :
    stResting.restTimer = 90 ∧
    (skipRest stResting).isResting = false ∧
    (skipRest stResting).restTimer = 90 ∧
    (skipRest stResting).restTimer ≠ 0 := by
  refine ⟨rfl, rfl, rfl, by decide⟩

/-- C2 (amended): `skipRest` sets `isResting = false` (and hides the rest
modal) in a single call regardless of remaining time and is idempotent, but
it leaves `restTimer` unchanged rather than zeroing it. -/
theorem C2_skipRest_amended (st : SessionState) :
    (skipRest st).isResting = false ∧
    (skipRest st).showRestModal = false ∧
    (skipRest st).restTimer = st.restTimer ∧
    skipRest (skipRest st) = skipRest st :=
  ⟨rfl, rfl, rfl, rfl⟩

/-- C5: `completeSet(i)` with a null weight or null reps shows only the
validation alert, issues no persistence call and leaves the entire session
state unchanged. -/
theorem C5_null_weight_or_reps_rejected (w : Workout) (st : SessionState) (i : Nat)
    (set : ActiveSet) (hget : st.sets[i]? = some set)
    (hnull : set.weight_lbs = none ∨ set.reps = none) (outcome : DbOutcome) :
    completeSet w st i outcome = (st, CompleteResult.validationAlert, none) := by
  simp only [completeSet, hget]
  rcases hnull with h | h <;> simp [ratTruthy, natTruthy, h]

/-- Witness for C5 at a fresh session, whose set 0 has null weight and reps. -/
theorem C5_witness :
    completeSet wOne (initState wOne "s1") 0 DbOutcome.ok =
      (initState wOne "s1", CompleteResult.validationAlert, none) :=
  C5_null_weight_or_reps_rejected wOne (initState wOne "s1") 0 setFresh0
    (by decide) (Or.inl rfl) DbOutcome.ok

/-- C9 counterexample: `updateSet` has no completed-guard, so invoking it on
an already-completed set is not a no-op — it changes the set's field. -/
theorem C9_counterexample :
    (stDone.sets[0]?.map (·.completed)) = some true ∧
    updateSet stDone 0 (SetValue.weight_lbs (some 200)) ≠ stDone := by
  refine ⟨rfl, by decide⟩

/-- C10: the completion guard tests JavaScript truthiness, so a set whose
entered weight or reps equals `0` is rejected exactly like a null one: the
validation alert fires, no persistence call is issued, and the state is
unchanged — a zero-weight or zero-rep set can never be completed. -/
theorem C10_zero_weight_or_reps_rejected (w : Workout) (st : SessionState) (i : Nat)
    (set : ActiveSet) (hget : st.sets[i]? = some set)
    (hzero : set.weight_lbs = some 0 ∨ set.reps = some 0) (outcome : DbOutcome) :
    completeSet w st i outcome = (st, CompleteResult.validationAlert, none) := by
  simp only [completeSet, hget]
  rcases hzero with h | h <;> simp [ratTruthy, natTruthy, h]

/-- Witness for C10 at a session whose set 0 has zero weight entered. -/
theorem C10_witness :
    completeSet wOne stZeroW 0 DbOutcome.ok =
      (stZeroW, CompleteResult.validationAlert, none) :=
  C10_zero_weight_or_reps_rejected wOne stZeroW 0 setZeroW (by decide)
    (Or.inl rfl) DbOutcome.ok

/-- The direction of the rest-timer invariant that the code does maintain:
whenever `isResting` holds the timer is positive. -/
def RestInv (st : SessionState) : Prop := st.isResting = true → 0 < st.restTimer

/-- JavaScript `v || d` is positive whenever the default is. -/
theorem jsOr_pos (v : Option Nat) (d : Nat) (hd : 0 < d) : 0 < jsOr v d := by
  cases v with
  | none => simpa [jsOr]
  | some n =>
    by_cases hn : n = 0 <;> simp [jsOr, hn] <;> omega

/-- Every controller operation preserves `RestInv`. -/
theorem restInv_step (w : Workout) (op : Op) (st : SessionState) (h : RestInv st) :
    RestInv (step w st op) := by
  cases op with
  | updateField i v => exact h
  | doCompleteSet i outcome =>
    simp only [step, completeSet]
    split
    · exact h
    · split
      · exact h
      · split
        · exact h
        · dsimp only
          split
          · intro _
            exact jsOr_pos _ 60 (by omega)
          · exact h
  | doTick =>
    simp only [step, tick]
    split
    · split
      · intro hc
        simp at hc
      · rename_i hcond hgt
        intro _
        show 0 < st.restTimer - 1
        omega
    · exact h
  | doSkipRest =>
    intro hc
    simp [step, skipRest] at hc
  | doExtendRest =>
    intro _
    show 0 < st.restTimer + 30
    omega
  | advanceExercise =>
    simp only [step, nextExercise]
    split
    · exact h
    · exact h

/-- `RestInv` is preserved along any run of operations. -/
theorem restInv_foldl (w : Workout) (ops : List Op) (st : SessionState) (h : RestInv st) :
    RestInv (ops.foldl (step w) st) := by
  induction ops generalizing st with
  | nil => exact h
  | cons op rest ih => exact ih (step w st op) (restInv_step w op st h)

/-- C3 counterexample: the claimed "`restTimer` nonzero iff `isResting`"
invariant fails in a reachable state — one press of the +30s button from a
fresh session (its `onPress` is an unconditional `setRestTimer(prev => prev + 30)`)
leaves `restTimer = 30` with `isResting = false`. -/
theorem C3_counterexample :
    (run wOne "s1" [Op.doExtendRest]).restTimer = 30 ∧
    (run wOne "s1" [Op.doExtendRest]).isResting = false := by
  refine ⟨rfl, rfl⟩

/-- C3 (amended): in every state reachable from a freshly started session by
any sequence of controller operations (including field edits), `isResting`
implies `restTimer > 0`; the converse direction of the claimed equivalence
does not hold (`extendRest` raises the timer while not resting, and
`skipRest` clears `isResting` without zeroing the timer). -/
theorem C3_resting_implies_timer_positive (w : Workout) (sid : String) (ops : List Op)
    (h : (run w sid ops).isResting = true) : 0 < (run w sid ops).restTimer :=
  restInv_foldl w ops (initState w sid) (fun hc => by simp [initState] at hc) h

/-- Witness for C3 after completing a set: the session is resting, so the
timer is positive. -/
theorem C3_witness :
    0 < (run wOne "s1" [Op.updateField 0 (SetValue.weight_lbs (some 135)),
          Op.updateField 0 (SetValue.reps (some 5)),
          Op.doCompleteSet 0 DbOutcome.ok]).restTimer :=
  C3_resting_implies_timer_positive wOne "s1"
    [Op.updateField 0 (SetValue.weight_lbs (some 135)),
     Op.updateField 0 (SetValue.reps (some 5)),
     Op.doCompleteSet 0 DbOutcome.ok] (by decide)

/-- Iterating `tick` from a resting state with `restTimer = n > 0` reaches
timer 0 and not-resting in exactly `n` steps. -/
theorem tick_iterate_drains (n : Nat) : ∀ st : SessionState, st.isResting = true →
    st.restTimer = n → 0 < n →
    (tick^[n] st).restTimer = 0 ∧ (tick^[n] st).isResting = false := by
  induction n with
  | zero =>
    intro st _ _ hpos
    exact absurd hpos (by omega)
  | succ k ih =>
    intro st hres ht _
    have hcond : (st.isResting && decide (0 < st.restTimer)) = true := by
      rw [hres, ht]
      simp
    rw [Function.iterate_succ_apply]
    rcases Nat.eq_zero_or_pos k with hk | hk
    · subst hk
      have h1 : tick st =
          { st with restTimer := 0, isResting := false, showRestModal := false } := by
        unfold tick
        rw [if_pos hcond, if_pos (by omega)]
      rw [Function.iterate_zero_apply, h1]
      exact ⟨rfl, rfl⟩
    · have h1 : tick st = { st with restTimer := st.restTimer - 1 } := by
        unfold tick
        rw [if_pos hcond, if_neg (by omega)]
      exact ih (tick st) (by rw [h1]; exact hres)
        (by rw [h1]; show st.restTimer - 1 = k; omega) hk

/-- C6: while resting with a positive timer, one `tick` decrements
`restTimer` by exactly 1 and clears `isResting` precisely when the timer
reaches 0; consequently `n` ticks from `restTimer = n > 0` end with
`restTimer = 0` and `isResting = false`. -/
theorem C6_tick_countdown (st : SessionState) (n : Nat)
    (hres : st.isResting = true) (ht : st.restTimer = n) (hpos : 0 < n) :
    (tick st).restTimer = n - 1 ∧
    ((tick st).restTimer = 0 → (tick st).isResting = false) ∧
    (tick^[n] st).restTimer = 0 ∧ (tick^[n] st).isResting = false := by
  have hcond : (st.isResting && decide (0 < st.restTimer)) = true := by
    rw [hres, ht]
    simp [hpos]
  have hdrain := tick_iterate_drains n st hres ht hpos
  by_cases h1 : st.restTimer ≤ 1
  · have htick : tick st =
        { st with restTimer := 0, isResting := false, showRestModal := false } := by
      unfold tick
      rw [if_pos hcond, if_pos h1]
    refine ⟨by rw [htick]; simp; omega, by rw [htick]; intro _; rfl, hdrain⟩
  · have htick : tick st = { st with restTimer := st.restTimer - 1 } := by
      unfold tick
      rw [if_pos hcond, if_neg h1]
    refine ⟨by rw [htick, ht], ?_, hdrain⟩
    rw [htick]
    intro h0
    simp only at h0
    omega

/-- Witness for C6 at a resting state with 3 seconds remaining. -/
theorem C6_witness :
    (tick stTimer3).restTimer = 3 - 1 ∧
    ((tick stTimer3).restTimer = 0 → (tick stTimer3).isResting = false) ∧
    (tick^[3] stTimer3).restTimer = 0 ∧ (tick^[3] stTimer3).isResting = false :=
  C6_tick_countdown stTimer3 3 rfl rfl (by decide)

/-- Shape of `initializeSetsForExercise` at an in-range exercise index. -/
theorem initSets_spec (w : Workout) (idx : Nat) (ex : WorkoutExercise)
    (hg : w.workout_exercises[idx]? = some ex) :
    (initializeSetsForExercise w idx).length = ex.sets ∧
    ∀ k, k < ex.sets →
      (initializeSetsForExercise w idx)[k]? = some
        { exercise_id := ex.exercise_id
          exercise_name := ex.exercise.name
          set_number := k + 1
          weight_lbs := none
          reps := none
          rpe := none
          completed := false
          target_reps := ex.reps
          rest_seconds := some ex.rest_seconds } := by
  constructor
  · simp [initializeSetsForExercise, hg]
  · intro k hk
    simp [initializeSetsForExercise, hg, List.getElem?_map, List.getElem?_range, hk]

/-- C7: a freshly started session points at exercise 0 and instantiates one
reset `ActiveSet` per prescribed set of the first exercise, numbered from 1,
with `target_reps` and `rest_seconds` copied from the prescription. -/
theorem C7_fresh_session_shape (w : Workout) (sid : String) (ex : WorkoutExercise)
    (hg : w.workout_exercises[0]? = some ex) :
    (initState w sid).currentExerciseIndex = 0 ∧
    (initState w sid).sets.length = ex.sets ∧
    ∀ k, k < ex.sets →
      (initState w sid).sets[k]? = some
        { exercise_id := ex.exercise_id
          exercise_name := ex.exercise.name
          set_number := k + 1
          weight_lbs := none
          reps := none
          rpe := none
          completed := false
          target_reps := ex.reps
          rest_seconds := some ex.rest_seconds } :=
  ⟨rfl, (initSets_spec w 0 ex hg).1, (initSets_spec w 0 ex hg).2⟩

/-- Witness for C7 on the one-exercise workout `wOne`. -/
theorem C7_witness :
    (initState wOne "s1").currentExerciseIndex = 0 ∧
    (initState wOne "s1").sets.length = wxTwoSets.sets ∧
    (initState wOne "s1").sets[0]? = some
      { exercise_id := wxTwoSets.exercise_id
        exercise_name := wxTwoSets.exercise.name
        set_number := 0 + 1
        weight_lbs := none
        reps := none
        rpe := none
        completed := false
        target_reps := wxTwoSets.reps
        rest_seconds := some wxTwoSets.rest_seconds } :=
  ⟨(C7_fresh_session_shape wOne "s1" wxTwoSets (by decide)).1,
   (C7_fresh_session_shape wOne "s1" wxTwoSets (by decide)).2.1,
   (C7_fresh_session_shape wOne "s1" wxTwoSets (by decide)).2.2 0 (by decide)⟩

/-- C8: when the current exercise is not the last one, `nextExercise`
increments the index by exactly 1 and rebuilds `sets` by the same
instantiation rule as session start; at the last index it instead invokes
`finishWorkout` and leaves the state (in particular the index) unchanged. -/
theorem C8_advance_exercise (w : Workout) (st : SessionState) :
    (∀ ex : WorkoutExercise,
      w.workout_exercises[st.currentExerciseIndex + 1]? = some ex →
      (nextExercise w st).2 = false ∧
      (nextExercise w st).1.currentExerciseIndex = st.currentExerciseIndex + 1 ∧
      (nextExercise w st).1.sets.length = ex.sets ∧
      ∀ k, k < ex.sets →
        (nextExercise w st).1.sets[k]? = some
          { exercise_id := ex.exercise_id
            exercise_name := ex.exercise.name
            set_number := k + 1
            weight_lbs := none
            reps := none
            rpe := none
            completed := false
            target_reps := ex.reps
            rest_seconds := some ex.rest_seconds }) ∧
    (0 < w.workout_exercises.length →
      st.currentExerciseIndex = w.workout_exercises.length - 1 →
      nextExercise w st = (st, true)) := by
  constructor
  · intro ex hg
    have hlt : st.currentExerciseIndex + 1 < w.workout_exercises.length := by
      by_contra hcon
      rw [List.getElem?_eq_none (by omega)] at hg
      exact Option.noConfusion hg
    have hcond : (st.currentExerciseIndex : Int) < (w.workout_exercises.length : Int) - 1 := by
      omega
    unfold nextExercise
    rw [if_pos hcond]
    exact ⟨rfl, rfl, (initSets_spec w (st.currentExerciseIndex + 1) ex hg).1,
      (initSets_spec w (st.currentExerciseIndex + 1) ex hg).2⟩
  · intro hlen hlast
    unfold nextExercise
    rw [if_neg (by omega)]

/-- A state sitting at the last exercise of `wTwo`. -/
def stAtLast : SessionState :=
  { sessionId := "s3", currentExerciseIndex := 1, sets := [],
    restTimer := 0, isResting := false, showRestModal := false }

/-- Witness for C8: advancing from exercise 0 of the two-exercise workout,
and finishing from its last exercise. -/
theorem C8_witness :
    (nextExercise wTwo (initState wTwo "s3")).2 = false ∧
    (nextExercise wTwo (initState wTwo "s3")).1.currentExerciseIndex = 1 ∧
    nextExercise wTwo stAtLast = (stAtLast, true) :=
  ⟨((C8_advance_exercise wTwo (initState wTwo "s3")).1 wxOneSet (by decide)).1,
   ((C8_advance_exercise wTwo (initState wTwo "s3")).1 wxOneSet (by decide)).2.1,
   (C8_advance_exercise wTwo stAtLast).2 (by decide) (by decide)⟩

/-- Pointwise description of `updateSet` on the `sets` list. -/
theorem updateSet_sets_getElem? (st : SessionState) (i : Nat) (v : SetValue) (j : Nat) :
    (updateSet st i v).sets[j]? =
      st.sets[j]?.map (fun set => if j = i then setField set v else set) := by
  show (st.sets.mapIdx fun index set =>
    if index = i then setField set v else set)[j]? = _
  rcases Nat.lt_or_ge j st.sets.length with hj | hj
  · rw [List.getElem?_eq_getElem (by simpa [List.length_mapIdx] using hj),
        List.getElem?_eq_getElem hj]
    simp [← List.get_eq_getElem, List.get_mapIdx]
  · rw [List.getElem?_eq_none (by simpa [List.length_mapIdx] using hj),
        List.getElem?_eq_none hj]
    rfl

/-- C9 (amended): invoking `updateSet` on an already-completed set raises no
error, but it is not a no-op — the controller replaces the named field's
value exactly as for an uncompleted set, touching no other set and no other
session field; immutability of completed sets is enforced only by the UI
(the inputs are rendered non-editable), not by the controller. -/
theorem C9_update_on_completed_set (st : SessionState) (i : Nat) (v : SetValue)
    (set : ActiveSet) (hget : st.sets[i]? = some set) (_hc : set.completed = true) :
    (updateSet st i v).sets[i]? = some (setField set v) ∧
    (∀ j, j ≠ i → (updateSet st i v).sets[j]? = st.sets[j]?) ∧
    (updateSet st i v).sessionId = st.sessionId ∧
    (updateSet st i v).currentExerciseIndex = st.currentExerciseIndex ∧
    (updateSet st i v).restTimer = st.restTimer ∧
    (updateSet st i v).isResting = st.isResting ∧
    (updateSet st i v).showRestModal = st.showRestModal := by
  refine ⟨?_, ?_, rfl, rfl, rfl, rfl, rfl⟩
  · rw [updateSet_sets_getElem?, hget]
    simp
  · intro j hj
    rw [updateSet_sets_getElem?]
    cases hgj : st.sets[j]? with
    | none => rfl
    | some s => simp [hj]

/-- Witness for C9 (amended) at the completed set of `stDone`. -/
theorem C9_witness :
    (updateSet stDone 0 (SetValue.weight_lbs (some 200))).sets[0]? =
      some (setField setDone (SetValue.weight_lbs (some 200))) ∧
    (updateSet stDone 0 (SetValue.weight_lbs (some 200))).sets[1]? = stDone.sets[1]? ∧
    (updateSet stDone 0 (SetValue.weight_lbs (some 200))).restTimer = stDone.restTimer :=
  ⟨(C9_update_on_completed_set stDone 0 (SetValue.weight_lbs (some 200)) setDone
      (by decide) rfl).1,
   (C9_update_on_completed_set stDone 0 (SetValue.weight_lbs (some 200)) setDone
      (by decide) rfl).2.1 1 (by decide),
   (C9_update_on_completed_set stDone 0 (SetValue.weight_lbs (some 200)) setDone
      (by decide) rfl).2.2.2.2.1⟩

/-- On the success path (set found, guard passed, promise not rejected),
`completeSet` marks the set completed, issues the insert payload and starts
the rest timer unless this is the last set of the last exercise. -/
theorem completeSet_valid_eq (w : Workout) (st : SessionState) (i : Nat) (set : ActiveSet)
    (hget : st.sets[i]? = some set) (hw : ratTruthy set.weight_lbs = true)
    (hr : natTruthy set.reps = true) (outcome : DbOutcome)
    (hout : outcome ≠ DbOutcome.exception) :
    completeSet w st i outcome =
      (if (i : Int) = (st.sets.length : Int) - 1 ∧
          (st.currentExerciseIndex : Int) = (w.workout_exercises.length : Int) - 1
       then updateSet st i (.completed true)
       else { updateSet st i (.completed true) with
              restTimer := jsOr set.rest_seconds 60
              isResting := true
              showRestModal := true },
       CompleteResult.completedOk,
       some { session_id := st.sessionId
              exercise_id := set.exercise_id
              exercise_name := set.exercise_name
              set_number := set.set_number
              weight_lbs := set.weight_lbs
              reps := set.reps
              rpe := set.rpe
              completed := true }) := by
  cases outcome with
  | exception => exact absurd rfl hout
  | ok =>
    simp only [completeSet, hget, hw, hr, Bool.not_true, Bool.or_self]
    by_cases hA : (i : Int) = (st.sets.length : Int) - 1 <;>
      by_cases hB : (st.currentExerciseIndex : Int) = (w.workout_exercises.length : Int) - 1 <;>
        simp [hA, hB]
  | errorResult =>
    simp only [completeSet, hget, hw, hr, Bool.not_true, Bool.or_self]
    by_cases hA : (i : Int) = (st.sets.length : Int) - 1 <;>
      by_cases hB : (st.currentExerciseIndex : Int) = (w.workout_exercises.length : Int) - 1 <;>
        simp [hA, hB]

/-- C4 counterexample: a prescribed rest of 0 seconds is treated like an
unset one.  Completing a non-final set whose `rest_seconds` is `0` starts
the timer at the default 60, not at the prescribed 0 as the claim states. -/
theorem C4_counterexample :
    (stNoRestReady.sets[0]?.map (·.rest_seconds)) = some (some 0) ∧
    (completeSet wNoRest stNoRestReady 0 DbOutcome.ok).2.1 = CompleteResult.completedOk ∧
    (completeSet wNoRest stNoRestReady 0 DbOutcome.ok).1.restTimer = 60 ∧
    (60 : Nat) ≠ 0 := by
  refine ⟨rfl, rfl, rfl, by decide⟩

/-- C4 (amended): after a successful `completeSet(i)` that is not the last
set of the last exercise, `isResting` becomes true and `restTimer` equals
the set's prescribed `rest_seconds`, defaulting to 60 when `rest_seconds`
is unset **or zero** (the source computes `set.rest_seconds || 60`); for
the last set of the last exercise no rest timer is started. -/
theorem C4_rest_timer (w : Workout) (st : SessionState) (i : Nat) (set : ActiveSet)
    (hget : st.sets[i]? = some set) (hw : ratTruthy set.weight_lbs = true)
    (hr : natTruthy set.reps = true) (hex : 0 < w.workout_exercises.length) :
    (¬ (i = st.sets.length - 1 ∧
        st.currentExerciseIndex = w.workout_exercises.length - 1) →
      (completeSet w st i .ok).1.isResting = true ∧
      (completeSet w st i .ok).1.restTimer =
        (if set.rest_seconds = none ∨ set.rest_seconds = some 0 then 60
         else set.rest_seconds.getD 60)) ∧
    ((i = st.sets.length - 1 ∧
        st.currentExerciseIndex = w.workout_exercises.length - 1) →
      (completeSet w st i .ok).1.isResting = st.isResting ∧
      (completeSet w st i .ok).1.restTimer = st.restTimer) := by
  have hlen : i < st.sets.length := by
    by_contra hcon
    rw [List.getElem?_eq_none (by omega)] at hget
    exact Option.noConfusion hget
  have heq := completeSet_valid_eq w st i set hget hw hr .ok (by simp)
  rw [heq]
  have hiff : ((i : Int) = (st.sets.length : Int) - 1 ∧
      (st.currentExerciseIndex : Int) = (w.workout_exercises.length : Int) - 1) ↔
      (i = st.sets.length - 1 ∧
       st.currentExerciseIndex = w.workout_exercises.length - 1) := by
    constructor <;> intro hand <;> exact ⟨by omega, by omega⟩
  constructor
  · intro hnot
    rw [if_neg (by rw [hiff]; exact hnot)]
    constructor
    · rfl
    · show jsOr set.rest_seconds 60 = _
      cases set.rest_seconds with
      | none => simp [jsOr]
      | some n => by_cases hn : n = 0 <;> simp [jsOr, hn]
  · intro hyes
    rw [if_pos (by rw [hiff]; exact hyes)]
    exact ⟨rfl, rfl⟩

/-- Witness for C4 (amended): completing the first of two sets on `wOne`
starts the rest timer at the prescribed 90 seconds. -/
theorem C4_witness :
    (completeSet wOne stReady 0 DbOutcome.ok).1.isResting = true ∧
    (completeSet wOne stReady 0 DbOutcome.ok).1.restTimer =
      (if setReady0.rest_seconds = none ∨ setReady0.rest_seconds = some 0 then 60
       else setReady0.rest_seconds.getD 60) :=
  (C4_rest_timer wOne stReady 0 setReady0 (by decide) (by decide) (by decide)
    (by decide)).1 (by decide)

end IronPillar
